import Mathlib

/-!
Shallow embedding of `server/etcdserver/uber_applier.go` (etcd apply pipeline).

The file models the `uberApplier` dispatcher: the tagged-union raft request,
the decorator chain over the backend applier, alarm-driven chain rebuilding
(`RestoreAlarms`), the dispatch switch with its deferred metric/diagnostic
instrumentation, and the `Alarm` wrapper.  The behaviour of the chain's
methods (implemented outside this source file) is abstracted as a
`ChainBehavior` parameter.
-/

/-- Errors surfaced by chain calls.  `errCompacted` models `mvcc.ErrCompacted`;
`other n` stands for any other error value. -/
inductive Err where
  | errCompacted
  | other (code : Nat)
deriving DecidableEq, Repr

/-- The `applyResult` struct: response, error, trace handle and the
physical-completion channel (modelled as a presence flag).  The Go zero value
`&applyResult\x7b\x7d` corresponds to the default field values. -/
structure ApplyResult where
  resp : Option Nat := none
  err : Option Err := none
  trace : Option Nat := none
  physc : Bool := false
deriving DecidableEq, Repr

/-- `pb.AlarmRequest_Action`: GET (query), ACTIVATE, DEACTIVATE. -/
inductive AlarmAction where
  | get
  | activate
  | deactivate
deriving DecidableEq, Repr

/-- `pb.AlarmRequest` restricted to the field the dispatcher inspects. -/
structure AlarmRequest where
  action : AlarmAction
deriving DecidableEq, Repr

/-- The decorator-chain shape of an `applierV3` value: the backend executor
possibly wrapped by quota, auth, capped (space-lockdown) and corrupt
decorators, mirroring the constructor nesting in the Go source. -/
inductive ApplierV3 where
  | backend
  | quota (inner : ApplierV3)
  | auth (inner : ApplierV3)
  | capped (inner : ApplierV3)
  | corrupt (inner : ApplierV3)
deriving DecidableEq, Repr

/-- `newApplierV3Backend`: the bare backend executor. -/
def newApplierV3Backend : ApplierV3 := ApplierV3.backend

/-- `newQuotaApplierV3`: wrap with the quota decorator. -/
def newQuotaApplierV3 (inner : ApplierV3) : ApplierV3 := ApplierV3.quota inner

/-- `newAuthApplierV3`: wrap with the authorization decorator. -/
def newAuthApplierV3 (inner : ApplierV3) : ApplierV3 := ApplierV3.auth inner

/-- `newApplierV3Capped`: wrap with the space-lockdown (capped) decorator. -/
def newApplierV3Capped (inner : ApplierV3) : ApplierV3 := ApplierV3.capped inner

/-- `newApplierV3Corrupt`: wrap with the corruption decorator. -/
def newApplierV3Corrupt (inner : ApplierV3) : ApplierV3 := ApplierV3.corrupt inner

/-- `newApplierV3`: the fixed base chain `auth(quota(backend))`. -/
def newApplierV3 : ApplierV3 :=
  newAuthApplierV3 (newQuotaApplierV3 newApplierV3Backend)

/-- Contents of the alarm store as read by `RestoreAlarms` via
`alarmStore.Get(NOSPACE)` / `alarmStore.Get(CORRUPT)`: whether each alarm
kind has at least one active member. -/
structure AlarmState where
  nospace : Bool
  corrupt : Bool
deriving DecidableEq, Repr

/-- The `uberApplier` state: the active chain `applyV3`, the fixed base
`applyV3base`, an opaque handle for `applyV3Internal`, and the alarm store
the applier reads. -/
structure UberApplier where
  applyV3 : ApplierV3
  applyV3base : ApplierV3
  applyV3Internal : Nat
  alarms : AlarmState
deriving DecidableEq, Repr

/-- `uberApplier.RestoreAlarms`: rebuild the active chain from the base,
wrapping with capped when the NOSPACE alarm is active, then with corrupt
when the CORRUPT alarm is active. -/
def UberApplier.RestoreAlarms (a : UberApplier) : UberApplier :=
  let noSpaceAlarms := a.alarms.nospace
  let corruptAlarms := a.alarms.corrupt
  let v1 := a.applyV3base
  let v2 := if noSpaceAlarms then newApplierV3Capped v1 else v1
  let v3 := if corruptAlarms then newApplierV3Corrupt v2 else v2
  { a with applyV3 := v3 }

/-- `newUberApplier`: construct with `applyV3 = applyV3base = newApplierV3`
and immediately call `RestoreAlarms`. -/
def newUberApplier (alarms : AlarmState) : UberApplier :=
  let applyV3base0 := newApplierV3
  let ua : UberApplier :=
    { applyV3 := applyV3base0
      applyV3base := applyV3base0
      applyV3Internal := 0
      alarms := alarms }
  ua.RestoreAlarms

/-- `pb.InternalRaftRequest` as the dispatcher sees it: one presence flag per
variant pointer, in the order of the dispatch switch; the alarm variant
carries its request since the `Alarm` wrapper inspects the action. -/
structure InternalRaftRequest where
  clusterVersionSet : Bool := false
  clusterMemberAttrSet : Bool := false
  downgradeInfoSet : Bool := false
  range : Bool := false
  put : Bool := false
  deleteRange : Bool := false
  txn : Bool := false
  compaction : Bool := false
  leaseGrant : Bool := false
  leaseRevoke : Bool := false
  leaseCheckpoint : Bool := false
  alarm : Option AlarmRequest := none
  authenticate : Bool := false
  authEnable : Bool := false
  authDisable : Bool := false
  authStatus : Bool := false
  authUserAdd : Bool := false
  authUserDelete : Bool := false
  authUserChangePassword : Bool := false
  authUserGrantRole : Bool := false
  authUserGet : Bool := false
  authUserRevokeRole : Bool := false
  authRoleAdd : Bool := false
  authRoleGrantPermission : Bool := false
  authRoleGet : Bool := false
  authRoleRevokePermission : Bool := false
  authRoleDelete : Bool := false
  authUserList : Bool := false
  authRoleList : Bool := false
deriving DecidableEq, Repr

/-- The three methods of `applierV3Internal`. -/
inductive InternalMethod where
  | clusterVersionSet
  | clusterMemberAttrSet
  | downgradeInfoSet
deriving DecidableEq, Repr

/-- The non-alarm methods of the `applierV3` chain invoked by dispatch. -/
inductive ChainMethod where
  | rangeM
  | putM
  | deleteRangeM
  | txnM
  | compactionM
  | leaseGrantM
  | leaseRevokeM
  | leaseCheckpointM
  | authenticateM
  | authEnableM
  | authDisableM
  | authStatusM
  | userAddM
  | userDeleteM
  | userChangePasswordM
  | userGrantRoleM
  | userGetM
  | userRevokeRoleM
  | roleAddM
  | roleGrantPermissionM
  | roleGetM
  | roleRevokePermissionM
  | roleDeleteM
  | userListM
  | roleListM
deriving DecidableEq, Repr

/-- One invocation made by dispatch: a call on the internal applier, on the
active chain, or the chain's `Alarm` entry point. -/
inductive Call where
  | internal (m : InternalMethod)
  | chain (m : ChainMethod)
  | chainAlarm (req : AlarmRequest)
deriving DecidableEq, Repr

/-- What one chain call returns (the chain's methods live outside this source
file); dispatch copies only the components the Go code assigns per variant. -/
structure ChainRet where
  resp : Option Nat := none
  err : Option Err := none
  trace : Option Nat := none
  physc : Bool := false
deriving DecidableEq, Repr

/-- Abstract behaviour of the decorator chain: a result for every non-alarm
method, and for `Alarm` a result together with the alarm-store contents after
the call (the backend's alarm handling mutates the store). -/
structure ChainBehavior where
  call : ApplierV3 → ChainMethod → ChainRet
  alarmCall : ApplierV3 → AlarmRequest → AlarmState → ChainRet × AlarmState

/-- A chain behaviour whose every call returns the zero result and leaves the
alarm store unchanged; used to evaluate the dispatcher on concrete inputs. -/
def trivialBehavior : ChainBehavior where
  call := fun _ _ => {}
  alarmCall := fun _ _ st => ({}, st)

/-- `uberApplier.Alarm`: delegate to the current chain's Alarm entry point,
then call `RestoreAlarms` when the action is ACTIVATE or DEACTIVATE; return
the chain's (response, error) unchanged.  Result: ((resp, err), new state,
calls made). -/
def UberApplier.Alarm (beh : ChainBehavior) (a : UberApplier)
    (ar : AlarmRequest) : (Option Nat × Option Err) × UberApplier × List Call :=
  let c := beh.alarmCall a.applyV3 ar a.alarms
  let a1 : UberApplier := { a with alarms := c.2 }
  let a2 :=
    if ar.action = AlarmAction.activate ∨ ar.action = AlarmAction.deactivate
    then a1.RestoreAlarms else a1
  ((c.1.resp, c.1.err), a2, [Call.chainAlarm ar])

/-- Result of one `dispatch` call.  `result` is the returned `*applyResult`
(`none` models the nil pointer); `op` and `ar` are the locals captured by the
deferred instrumentation block, which runs on every exit path, the panic
included; `panicked` records reaching the fatal default branch. -/
structure DispatchResult where
  result : Option ApplyResult
  state : UberApplier
  calls : List Call
  panicked : Bool
  op : String
  ar : ApplyResult
deriving Repr

/-- The success classification of the deferred block:
`ar.err == nil || ar.err == mvcc.ErrCompacted`. -/
def successOf (ar : ApplyResult) : Bool :=
  match ar.err with
  | none => true
  | some Err.errCompacted => true
  | some _ => false

/-- The single duration-metric observation emitted by the deferred block:
operation label and success label. -/
def DispatchResult.metric (d : DispatchResult) : String × Bool :=
  (d.op, successOf d.ar)

/-- Whether the deferred block emits the failed-apply diagnostic
(`warnOfFailedRequest`), i.e. exactly when not classified successful. -/
def DispatchResult.warnFailed (d : DispatchResult) : Bool :=
  ! successOf d.ar

/-- One cluster-control case arm of the dispatch switch: call the internal
applier's method and return the empty `applyResult`; the chain and the
applier state are untouched. -/
def internalArm (a : UberApplier) (m : InternalMethod) (op : String) :
    DispatchResult :=
  { result := some {}, state := a, calls := [Call.internal m],
    panicked := false, op := op, ar := {} }

/-- A case arm of the form `ar.resp, ar.err = a.applyV3.F(...)`. -/
def chainArm2 (beh : ChainBehavior) (a : UberApplier) (m : ChainMethod)
    (op : String) : DispatchResult :=
  let c := beh.call a.applyV3 m
  let ar1 : ApplyResult := { resp := c.resp, err := c.err }
  { result := some ar1, state := a, calls := [Call.chain m],
    panicked := false, op := op, ar := ar1 }

/-- A case arm of the form `ar.resp, ar.trace, ar.err = a.applyV3.F(...)`
(Put and Txn). -/
def chainArm3 (beh : ChainBehavior) (a : UberApplier) (m : ChainMethod)
    (op : String) : DispatchResult :=
  let c := beh.call a.applyV3 m
  let ar1 : ApplyResult := { resp := c.resp, trace := c.trace, err := c.err }
  { result := some ar1, state := a, calls := [Call.chain m],
    panicked := false, op := op, ar := ar1 }

/-- The Compaction case arm:
`ar.resp, ar.physc, ar.trace, ar.err = a.applyV3.Compaction(...)`. -/
def chainArm4 (beh : ChainBehavior) (a : UberApplier) (m : ChainMethod)
    (op : String) : DispatchResult :=
  let c := beh.call a.applyV3 m
  let ar1 : ApplyResult :=
    { resp := c.resp, physc := c.physc, trace := c.trace, err := c.err }
  { result := some ar1, state := a, calls := [Call.chain m],
    panicked := false, op := op, ar := ar1 }

/-- The Alarm case arm: `ar.resp, ar.err = a.Alarm(r.Alarm)` through the
`uberApplier.Alarm` wrapper, which may replace the active chain. -/
def alarmArm (beh : ChainBehavior) (a : UberApplier) (req : AlarmRequest) :
    DispatchResult :=
  let res := UberApplier.Alarm beh a req
  let ar1 : ApplyResult := { resp := res.1.1, err := res.1.2 }
  { result := some ar1, state := res.2.1, calls := res.2.2,
    panicked := false, op := "Alarm", ar := ar1 }

/-- `uberApplier.dispatch`: the full dispatch switch, in source order.
Cluster-control variants go to the internal applier and return the empty
result; otherwise a false `shouldApplyV3` returns nil; otherwise the variant's
chain method is invoked (the alarm variant through `UberApplier.Alarm`); an
unrecognized request reaches `lg.Panic`.  The `AuthStatus` case does not set
`op`, exactly as in the source, so its arm carries the initial `"unknown"`. -/
def UberApplier.dispatch (beh : ChainBehavior) (a : UberApplier)
    (r : InternalRaftRequest) (shouldApplyV3 : Bool) : DispatchResult :=
  if r.clusterVersionSet then
    internalArm a InternalMethod.clusterVersionSet "ClusterVersionSet"
  else if r.clusterMemberAttrSet then
    internalArm a InternalMethod.clusterMemberAttrSet "ClusterMemberAttrSet"
  else if r.downgradeInfoSet then
    internalArm a InternalMethod.downgradeInfoSet "DowngradeInfoSet"
  else if !shouldApplyV3 then
    { result := none, state := a, calls := [],
      panicked := false, op := "unknown", ar := {} }
  else if r.range then chainArm2 beh a ChainMethod.rangeM "Range"
  else if r.put then chainArm3 beh a ChainMethod.putM "Put"
  else if r.deleteRange then chainArm2 beh a ChainMethod.deleteRangeM "DeleteRange"
  else if r.txn then chainArm3 beh a ChainMethod.txnM "Txn"
  else if r.compaction then chainArm4 beh a ChainMethod.compactionM "Compaction"
  else if r.leaseGrant then chainArm2 beh a ChainMethod.leaseGrantM "LeaseGrant"
  else if r.leaseRevoke then chainArm2 beh a ChainMethod.leaseRevokeM "LeaseRevoke"
  else if r.leaseCheckpoint then
    chainArm2 beh a ChainMethod.leaseCheckpointM "LeaseCheckpoint"
  else
    match r.alarm with
    | some req => alarmArm beh a req
    | none =>
      if r.authenticate then
        chainArm2 beh a ChainMethod.authenticateM "Authenticate"
      else if r.authEnable then
        chainArm2 beh a ChainMethod.authEnableM "AuthEnable"
      else if r.authDisable then
        chainArm2 beh a ChainMethod.authDisableM "AuthDisable"
      else if r.authStatus then
        chainArm2 beh a ChainMethod.authStatusM "unknown"
      else if r.authUserAdd then
        chainArm2 beh a ChainMethod.userAddM "AuthUserAdd"
      else if r.authUserDelete then
        chainArm2 beh a ChainMethod.userDeleteM "AuthUserDelete"
      else if r.authUserChangePassword then
        chainArm2 beh a ChainMethod.userChangePasswordM "AuthUserChangePassword"
      else if r.authUserGrantRole then
        chainArm2 beh a ChainMethod.userGrantRoleM "AuthUserGrantRole"
      else if r.authUserGet then
        chainArm2 beh a ChainMethod.userGetM "AuthUserGet"
      else if r.authUserRevokeRole then
        chainArm2 beh a ChainMethod.userRevokeRoleM "AuthUserRevokeRole"
      else if r.authRoleAdd then
        chainArm2 beh a ChainMethod.roleAddM "AuthRoleAdd"
      else if r.authRoleGrantPermission then
        chainArm2 beh a ChainMethod.roleGrantPermissionM "AuthRoleGrantPermission"
      else if r.authRoleGet then
        chainArm2 beh a ChainMethod.roleGetM "AuthRoleGet"
      else if r.authRoleRevokePermission then
        chainArm2 beh a ChainMethod.roleRevokePermissionM
          "AuthRoleRevokePermission"
      else if r.authRoleDelete then
        chainArm2 beh a ChainMethod.roleDeleteM "AuthRoleDelete"
      else if r.authUserList then
        chainArm2 beh a ChainMethod.userListM "AuthUserList"
      else if r.authRoleList then
        chainArm2 beh a ChainMethod.roleListM "AuthRoleList"
      else
        { result := none, state := a, calls := [],
          panicked := true, op := "unknown", ar := {} }

/-- `uberApplier.Apply` hands `dispatch` to the chain's `WrapApply`, which
invokes the given apply function; the wrapping itself lives outside this
source file, so `Apply` is the dispatch call. -/
def UberApplier.Apply (beh : ChainBehavior) (a : UberApplier)
    (r : InternalRaftRequest) (shouldApplyV3 : Bool) : DispatchResult :=
  a.dispatch beh r shouldApplyV3

/-- A request holds a cluster-control variant. -/
def isClusterControl (r : InternalRaftRequest) : Bool :=
  r.clusterVersionSet || r.clusterMemberAttrSet || r.downgradeInfoSet

/-- The internal method a cluster-control request is routed to, following the
priority order of the dispatch switch. -/
def routedInternal (r : InternalRaftRequest) : InternalMethod :=
  if r.clusterVersionSet then InternalMethod.clusterVersionSet
  else if r.clusterMemberAttrSet then InternalMethod.clusterMemberAttrSet
  else InternalMethod.downgradeInfoSet

/-- A request holds some recognized variant (any case of the two switches). -/
def hasRecognizedVariant (r : InternalRaftRequest) : Bool :=
  r.clusterVersionSet || r.clusterMemberAttrSet || r.downgradeInfoSet ||
  r.range || r.put || r.deleteRange || r.txn || r.compaction ||
  r.leaseGrant || r.leaseRevoke || r.leaseCheckpoint || r.alarm.isSome ||
  r.authenticate || r.authEnable || r.authDisable || r.authStatus ||
  r.authUserAdd || r.authUserDelete || r.authUserChangePassword ||
  r.authUserGrantRole || r.authUserGet || r.authUserRevokeRole ||
  r.authRoleAdd || r.authRoleGrantPermission || r.authRoleGet ||
  r.authRoleRevokePermission || r.authRoleDelete ||
  r.authUserList || r.authRoleList

/-- A request is an alarm command whose action is ACTIVATE or DEACTIVATE. -/
def isAlarmChange (r : InternalRaftRequest) : Bool :=
  match r.alarm with
  | some req =>
      req.action = AlarmAction.activate || req.action = AlarmAction.deactivate
  | none => false

/-- States of the `uberApplier` reachable from construction by any sequence
of dispatched requests, under any chain behaviour. -/
inductive Reachable : UberApplier → Prop where
  | init (alarms : AlarmState) : Reachable (newUberApplier alarms)
  | step (beh : ChainBehavior) (s : UberApplier) (r : InternalRaftRequest)
      (g : Bool) (h : Reachable s) :
      Reachable (UberApplier.dispatch beh s r g).state


/-- Wrap `v` with `w` when `b` is set; identity otherwise. -/
def wrapIf (b : Bool) (w : ApplierV3 → ApplierV3) (v : ApplierV3) : ApplierV3 :=
  if b then w v else v

/-- A chain behaviour whose compaction call reports the already-compacted
error and whose other calls return the zero result. -/
def compactedBehavior : ChainBehavior where
  call := fun _ m =>
    if m = ChainMethod.compactionM then { err := some Err.errCompacted } else {}
  alarmCall := fun _ _ st => ({}, st)

/-! ### Helper lemmas -/

/-- `dispatch` never changes the `applyV3base` and `applyV3Internal` fields,
whatever the request, the gate flag and the chain behaviour. -/
theorem dispatch_state_frame (beh : ChainBehavior) (s : UberApplier)
    (r : InternalRaftRequest) (g : Bool) :
    (UberApplier.dispatch beh s r g).state.applyV3base = s.applyV3base ∧
    (UberApplier.dispatch beh s r g).state.applyV3Internal
      = s.applyV3Internal := by
  obtain ⟨cvs, cmas, dis, rng, put, dr, txn, cp, lgr, lrv, lcp, al,
    aut, aen, adi, ast, uad, ude, ucp, ugr, uge, urr,
    rad, rgp, rge, rrp, rde, uli, rli⟩ := r
  cases cvs
  case true => exact ⟨rfl, rfl⟩
  cases cmas
  case true => exact ⟨rfl, rfl⟩
  cases dis
  case true => exact ⟨rfl, rfl⟩
  cases g
  case false => exact ⟨rfl, rfl⟩
  cases rng
  case true => exact ⟨rfl, rfl⟩
  cases put
  case true => exact ⟨rfl, rfl⟩
  cases dr
  case true => exact ⟨rfl, rfl⟩
  cases txn
  case true => exact ⟨rfl, rfl⟩
  cases cp
  case true => exact ⟨rfl, rfl⟩
  cases lgr
  case true => exact ⟨rfl, rfl⟩
  cases lrv
  case true => exact ⟨rfl, rfl⟩
  cases lcp
  case true => exact ⟨rfl, rfl⟩
  cases al
  case some =>
    rename_i req
    obtain ⟨act⟩ := req
    cases act <;> exact ⟨rfl, rfl⟩
  cases aut
  case true => exact ⟨rfl, rfl⟩
  cases aen
  case true => exact ⟨rfl, rfl⟩
  cases adi
  case true => exact ⟨rfl, rfl⟩
  cases ast
  case true => exact ⟨rfl, rfl⟩
  cases uad
  case true => exact ⟨rfl, rfl⟩
  cases ude
  case true => exact ⟨rfl, rfl⟩
  cases ucp
  case true => exact ⟨rfl, rfl⟩
  cases ugr
  case true => exact ⟨rfl, rfl⟩
  cases uge
  case true => exact ⟨rfl, rfl⟩
  cases urr
  case true => exact ⟨rfl, rfl⟩
  cases rad
  case true => exact ⟨rfl, rfl⟩
  cases rgp
  case true => exact ⟨rfl, rfl⟩
  cases rge
  case true => exact ⟨rfl, rfl⟩
  cases rrp
  case true => exact ⟨rfl, rfl⟩
  cases rde
  case true => exact ⟨rfl, rfl⟩
  cases uli
  case true => exact ⟨rfl, rfl⟩
  cases rli
  case true => exact ⟨rfl, rfl⟩
  exact ⟨rfl, rfl⟩

/-- Every reachable state keeps the base chain the constructor built:
`auth(quota(backend))`. -/
theorem reachable_base (s : UberApplier) (h : Reachable s) :
    s.applyV3base = newApplierV3 := by
  induction h with
  | init alarms =>
      simp [newUberApplier, UberApplier.RestoreAlarms]
  | step beh s r g h ih =>
      rw [(dispatch_state_frame beh s r g).1]
      exact ih

/-- Any result with a non-nil `result` returns exactly the `applyResult`
captured by the deferred instrumentation. -/
theorem dispatch_result_ar (beh : ChainBehavior) (s : UberApplier)
    (r : InternalRaftRequest) (g : Bool) :
    ∀ res, (UberApplier.dispatch beh s r g).result = some res →
      res = (UberApplier.dispatch beh s r g).ar := by
  obtain ⟨cvs, cmas, dis, rng, put, dr, txn, cp, lgr, lrv, lcp, al,
    aut, aen, adi, ast, uad, ude, ucp, ugr, uge, urr,
    rad, rgp, rge, rrp, rde, uli, rli⟩ := r
  cases cvs
  case true => intro res h; exact (Option.some.inj h).symm
  cases cmas
  case true => intro res h; exact (Option.some.inj h).symm
  cases dis
  case true => intro res h; exact (Option.some.inj h).symm
  cases g
  case false => intro res h; exact Option.noConfusion h
  cases rng
  case true => intro res h; exact (Option.some.inj h).symm
  cases put
  case true => intro res h; exact (Option.some.inj h).symm
  cases dr
  case true => intro res h; exact (Option.some.inj h).symm
  cases txn
  case true => intro res h; exact (Option.some.inj h).symm
  cases cp
  case true => intro res h; exact (Option.some.inj h).symm
  cases lgr
  case true => intro res h; exact (Option.some.inj h).symm
  cases lrv
  case true => intro res h; exact (Option.some.inj h).symm
  cases lcp
  case true => intro res h; exact (Option.some.inj h).symm
  cases al
  case some =>
    rename_i req
    intro res h; exact (Option.some.inj h).symm
  cases aut
  case true => intro res h; exact (Option.some.inj h).symm
  cases aen
  case true => intro res h; exact (Option.some.inj h).symm
  cases adi
  case true => intro res h; exact (Option.some.inj h).symm
  cases ast
  case true => intro res h; exact (Option.some.inj h).symm
  cases uad
  case true => intro res h; exact (Option.some.inj h).symm
  cases ude
  case true => intro res h; exact (Option.some.inj h).symm
  cases ucp
  case true => intro res h; exact (Option.some.inj h).symm
  cases ugr
  case true => intro res h; exact (Option.some.inj h).symm
  cases uge
  case true => intro res h; exact (Option.some.inj h).symm
  cases urr
  case true => intro res h; exact (Option.some.inj h).symm
  cases rad
  case true => intro res h; exact (Option.some.inj h).symm
  cases rgp
  case true => intro res h; exact (Option.some.inj h).symm
  cases rge
  case true => intro res h; exact (Option.some.inj h).symm
  cases rrp
  case true => intro res h; exact (Option.some.inj h).symm
  cases rde
  case true => intro res h; exact (Option.some.inj h).symm
  cases uli
  case true => intro res h; exact (Option.some.inj h).symm
  cases rli
  case true => intro res h; exact (Option.some.inj h).symm
  intro res h; exact Option.noConfusion h

/-- `successOf` holds exactly when the error is absent or already-compacted. -/
theorem successOf_iff (ar : ApplyResult) :
    successOf ar = true ↔
      (ar.err = none ∨ ar.err = some Err.errCompacted) := by
  obtain ⟨rsp, e, t, p⟩ := ar
  cases e with
  | none => simp [successOf]
  | some x => cases x <;> simp [successOf]

/-- The failed-apply diagnostic fires exactly when the outcome is not
classified successful. -/
theorem warnFailed_iff (d : DispatchResult) :
    d.warnFailed = true ↔
      ¬ (d.ar.err = none ∨ d.ar.err = some Err.errCompacted) := by
  rw [← successOf_iff]
  cases h : successOf d.ar <;> simp [DispatchResult.warnFailed, h]

/-- A chain call is never an element of a singleton internal call list. -/
theorem chain_not_mem_internal (m : InternalMethod) (x : ChainMethod) :
    Call.chain x ∉ [Call.internal m] := by simp

/-- A chain Alarm call is never an element of a singleton internal call
list. -/
theorem chainAlarm_not_mem_internal (m : InternalMethod) (q : AlarmRequest) :
    Call.chainAlarm q ∉ [Call.internal m] := by simp

/-! ### Claims -/

/-- C1: a command with a cluster-control variant set is routed to the
internal applier for every gate flag and alarm state: the only invocation is
the matching internal method, no policy-chain method runs, the applier state
is untouched, and the outcome has neither response nor error. -/
theorem cluster_control_internal (beh : ChainBehavior) (s : UberApplier)
    (r : InternalRaftRequest) (g : Bool) (h : isClusterControl r = true) :
    (UberApplier.dispatch beh s r g).result = some {} ∧
    (UberApplier.dispatch beh s r g).calls
      = [Call.internal (routedInternal r)] ∧
    (∀ m, Call.chain m ∉ (UberApplier.dispatch beh s r g).calls) ∧
    (∀ q, Call.chainAlarm q ∉ (UberApplier.dispatch beh s r g).calls) ∧
    (UberApplier.dispatch beh s r g).state = s := by
  obtain ⟨cvs, cmas, dis, rng, put, dr, txn, cp, lgr, lrv, lcp, al,
    aut, aen, adi, ast, uad, ude, ucp, ugr, uge, urr,
    rad, rgp, rge, rrp, rde, uli, rli⟩ := r
  cases cvs
  case true =>
    exact ⟨rfl, rfl, fun x => chain_not_mem_internal _ x,
      fun q => chainAlarm_not_mem_internal _ q, rfl⟩
  cases cmas
  case true =>
    exact ⟨rfl, rfl, fun x => chain_not_mem_internal _ x,
      fun q => chainAlarm_not_mem_internal _ q, rfl⟩
  cases dis
  case true =>
    exact ⟨rfl, rfl, fun x => chain_not_mem_internal _ x,
      fun q => chainAlarm_not_mem_internal _ q, rfl⟩
  simp [isClusterControl] at h

/-- C1 witness: the cluster-version-set command at a concrete state. -/
theorem cluster_control_internal_witness :
    (UberApplier.dispatch trivialBehavior (newUberApplier ⟨false, false⟩)
      { clusterVersionSet := true } true).result
        = some ({} : ApplyResult) :=
  (cluster_control_internal trivialBehavior (newUberApplier ⟨false, false⟩)
    { clusterVersionSet := true } true (by decide)).1

/-- C2: after `RestoreAlarms` on any reachable state the active chain is the
fixed base `auth(quota(backend))`, wrapped by the capped decorator exactly
when the NOSPACE alarm is active and by the corrupt decorator exactly when
the CORRUPT alarm is active, corrupt outermost. -/
theorem restoreAlarms_chain_shape (s : UberApplier) (h : Reachable s) :
    s.RestoreAlarms.applyV3 =
      wrapIf s.alarms.corrupt ApplierV3.corrupt
        (wrapIf s.alarms.nospace ApplierV3.capped
          (ApplierV3.auth (ApplierV3.quota ApplierV3.backend))) := by
  have hb := reachable_base s h
  obtain ⟨v, b, i, al⟩ := s
  obtain ⟨ns, co⟩ := al
  have hb2 : b = ApplierV3.auth (ApplierV3.quota ApplierV3.backend) := hb
  subst hb2
  cases ns <;> cases co <;> rfl

/-- C2 witness: both alarms active at a concrete reachable state. -/
theorem restoreAlarms_chain_shape_witness :
    ((newUberApplier ⟨true, true⟩).RestoreAlarms).applyV3 =
      ApplierV3.corrupt (ApplierV3.capped
        (ApplierV3.auth (ApplierV3.quota ApplierV3.backend))) :=
  restoreAlarms_chain_shape (newUberApplier ⟨true, true⟩)
    (Reachable.init ⟨true, true⟩)

/-- C3: the `Alarm` wrapper first calls the current chain's Alarm entry
point, returns exactly the pair the chain returned, and rebuilds the chain
with `RestoreAlarms` exactly when the action is ACTIVATE or DEACTIVATE,
whether or not the chain call produced an error. -/
theorem alarm_wrapper_spec (beh : ChainBehavior) (a : UberApplier)
    (req : AlarmRequest) :
    (UberApplier.Alarm beh a req).1 =
      ((beh.alarmCall a.applyV3 req a.alarms).1.resp,
        (beh.alarmCall a.applyV3 req a.alarms).1.err) ∧
    (UberApplier.Alarm beh a req).2.2 = [Call.chainAlarm req] ∧
    (UberApplier.Alarm beh a req).2.1 =
      (if req.action = AlarmAction.activate
          ∨ req.action = AlarmAction.deactivate then
        ({ a with
            alarms := (beh.alarmCall a.applyV3 req a.alarms).2 } :
          UberApplier).RestoreAlarms
      else
        { a with alarms := (beh.alarmCall a.applyV3 req a.alarms).2 }) := by
  obtain ⟨act⟩ := req
  cases act <;> exact ⟨rfl, rfl, rfl⟩

/-- C4: the metric success label is true exactly when the captured outcome
error is absent or already-compacted, the failed-apply diagnostic fires
exactly on failure classification, and any non-nil returned outcome carries
exactly the captured error, so already-compacted is still returned. -/
theorem metric_success_classification (beh : ChainBehavior) (s : UberApplier)
    (r : InternalRaftRequest) (g : Bool) :
    ((UberApplier.dispatch beh s r g).metric.2 = true ↔
      ((UberApplier.dispatch beh s r g).ar.err = none ∨
        (UberApplier.dispatch beh s r g).ar.err
          = some Err.errCompacted)) ∧
    ((UberApplier.dispatch beh s r g).warnFailed = true ↔
      ¬ ((UberApplier.dispatch beh s r g).ar.err = none ∨
        (UberApplier.dispatch beh s r g).ar.err
          = some Err.errCompacted)) ∧
    (∀ res, (UberApplier.dispatch beh s r g).result = some res →
      res.err = (UberApplier.dispatch beh s r g).ar.err) :=
  ⟨successOf_iff (UberApplier.dispatch beh s r g).ar,
    warnFailed_iff (UberApplier.dispatch beh s r g),
    fun res h =>
      congrArg ApplyResult.err (dispatch_result_ar beh s r g res h)⟩

/-- C4 witness: a compaction that reports already-compacted is labeled
successful and still returns the error. -/
theorem metric_success_classification_witness :
    (UberApplier.dispatch compactedBehavior (newUberApplier ⟨false, false⟩)
        { compaction := true } true).metric.2 = true ∧
    (UberApplier.dispatch compactedBehavior (newUberApplier ⟨false, false⟩)
        { compaction := true } true).ar.err = some Err.errCompacted := by
  constructor
  · exact (metric_success_classification compactedBehavior
      (newUberApplier ⟨false, false⟩) { compaction := true } true).1.mpr
      (Or.inr rfl)
  · rfl

/-- C5 counterexample: the empty command forced through dispatch with the
gate flag false returns the nil outcome and never reaches the panic branch,
so the claim does not hold for every gate value. -/
theorem empty_command_gate_false_no_panic :
    (UberApplier.dispatch trivialBehavior (newUberApplier ⟨false, false⟩)
        ({} : InternalRaftRequest) false).panicked = false ∧
    (UberApplier.dispatch trivialBehavior (newUberApplier ⟨false, false⟩)
        ({} : InternalRaftRequest) false).result = none :=
  ⟨rfl, rfl⟩

/-- C5 (amended): a command with no recognized variant reaches the fatal
panic branch whenever the gate flag is true; with the gate flag false the
gate returns the nil outcome first. -/
theorem unrecognized_command_panics (beh : ChainBehavior) (s : UberApplier)
    (r : InternalRaftRequest) (h : hasRecognizedVariant r = false) :
    (UberApplier.dispatch beh s r true).panicked = true := by
  obtain ⟨cvs, cmas, dis, rng, put, dr, txn, cp, lgr, lrv, lcp, al,
    aut, aen, adi, ast, uad, ude, ucp, ugr, uge, urr,
    rad, rgp, rge, rrp, rde, uli, rli⟩ := r
  cases cvs
  case true => simp [hasRecognizedVariant] at h
  cases cmas
  case true => simp [hasRecognizedVariant] at h
  cases dis
  case true => simp [hasRecognizedVariant] at h
  cases rng
  case true => simp [hasRecognizedVariant] at h
  cases put
  case true => simp [hasRecognizedVariant] at h
  cases dr
  case true => simp [hasRecognizedVariant] at h
  cases txn
  case true => simp [hasRecognizedVariant] at h
  cases cp
  case true => simp [hasRecognizedVariant] at h
  cases lgr
  case true => simp [hasRecognizedVariant] at h
  cases lrv
  case true => simp [hasRecognizedVariant] at h
  cases lcp
  case true => simp [hasRecognizedVariant] at h
  cases al
  case some =>
    rename_i req
    simp [hasRecognizedVariant] at h
  cases aut
  case true => simp [hasRecognizedVariant] at h
  cases aen
  case true => simp [hasRecognizedVariant] at h
  cases adi
  case true => simp [hasRecognizedVariant] at h
  cases ast
  case true => simp [hasRecognizedVariant] at h
  cases uad
  case true => simp [hasRecognizedVariant] at h
  cases ude
  case true => simp [hasRecognizedVariant] at h
  cases ucp
  case true => simp [hasRecognizedVariant] at h
  cases ugr
  case true => simp [hasRecognizedVariant] at h
  cases uge
  case true => simp [hasRecognizedVariant] at h
  cases urr
  case true => simp [hasRecognizedVariant] at h
  cases rad
  case true => simp [hasRecognizedVariant] at h
  cases rgp
  case true => simp [hasRecognizedVariant] at h
  cases rge
  case true => simp [hasRecognizedVariant] at h
  cases rrp
  case true => simp [hasRecognizedVariant] at h
  cases rde
  case true => simp [hasRecognizedVariant] at h
  cases uli
  case true => simp [hasRecognizedVariant] at h
  cases rli
  case true => simp [hasRecognizedVariant] at h
  rfl

/-- C5 amended-claim witness: the empty command with the gate flag true. -/
theorem unrecognized_command_panics_witness :
    (UberApplier.dispatch trivialBehavior (newUberApplier ⟨false, false⟩)
        ({} : InternalRaftRequest) true).panicked = true :=
  unrecognized_command_panics trivialBehavior (newUberApplier ⟨false, false⟩)
    {} (by decide)

/-- C6: a non-cluster-control command dispatched with the gate flag false is
a no-op: the nil outcome is returned, no internal or chain method is invoked
and the applier state is unchanged. -/
theorem gate_false_noop (beh : ChainBehavior) (s : UberApplier)
    (r : InternalRaftRequest) (h : isClusterControl r = false) :
    (UberApplier.dispatch beh s r false).result = none ∧
    (UberApplier.dispatch beh s r false).calls = [] ∧
    (UberApplier.dispatch beh s r false).state = s := by
  obtain ⟨cvs, cmas, dis, rng, put, dr, txn, cp, lgr, lrv, lcp, al,
    aut, aen, adi, ast, uad, ude, ucp, ugr, uge, urr,
    rad, rgp, rge, rrp, rde, uli, rli⟩ := r
  cases cvs
  case true => simp [isClusterControl] at h
  cases cmas
  case true => simp [isClusterControl] at h
  cases dis
  case true => simp [isClusterControl] at h
  exact ⟨rfl, rfl, rfl⟩

/-- C6 witness: a put command with the gate flag false. -/
theorem gate_false_noop_witness :
    (UberApplier.dispatch trivialBehavior (newUberApplier ⟨false, false⟩)
        { put := true } false).result = none ∧
    (UberApplier.dispatch trivialBehavior (newUberApplier ⟨false, false⟩)
        { put := true } false).calls = [] :=
  ⟨(gate_false_noop trivialBehavior (newUberApplier ⟨false, false⟩)
      { put := true } (by decide)).1,
    (gate_false_noop trivialBehavior (newUberApplier ⟨false, false⟩)
      { put := true } (by decide)).2.1⟩

/-- C7: `RestoreAlarms` is idempotent: with the alarm state unchanged, a
second invocation leaves the applier, and so the active chain, exactly as
the first did. -/
theorem restoreAlarms_idempotent (a : UberApplier) :
    a.RestoreAlarms.RestoreAlarms = a.RestoreAlarms := by
  obtain ⟨v, b, i, al⟩ := a
  obtain ⟨ns, co⟩ := al
  cases ns <;> cases co <;> rfl

/-- C8: on an auth-status command the duration metric is labeled "unknown"
(the case arm omits setting the operation name), unlike e.g. a put command,
which is labeled "Put"; both are classified successful here. -/
theorem authStatus_metric_labeled_unknown :
    (UberApplier.dispatch trivialBehavior (newUberApplier ⟨false, false⟩)
        { authStatus := true } true).metric = ("unknown", true) ∧
    (UberApplier.dispatch trivialBehavior (newUberApplier ⟨false, false⟩)
        { put := true } true).metric = ("Put", true) :=
  ⟨rfl, rfl⟩

/-- C9: any command that is not an alarm activate/deactivate leaves the
active chain, the base chain and the internal applier exactly as they were
before the dispatch. -/
theorem non_alarm_frame (beh : ChainBehavior) (s : UberApplier)
    (r : InternalRaftRequest) (g : Bool) (h : isAlarmChange r = false) :
    (UberApplier.dispatch beh s r g).state.applyV3 = s.applyV3 ∧
    (UberApplier.dispatch beh s r g).state.applyV3base = s.applyV3base ∧
    (UberApplier.dispatch beh s r g).state.applyV3Internal
      = s.applyV3Internal := by
  refine ⟨?_, (dispatch_state_frame beh s r g).1,
    (dispatch_state_frame beh s r g).2⟩
  obtain ⟨cvs, cmas, dis, rng, put, dr, txn, cp, lgr, lrv, lcp, al,
    aut, aen, adi, ast, uad, ude, ucp, ugr, uge, urr,
    rad, rgp, rge, rrp, rde, uli, rli⟩ := r
  cases cvs
  case true => rfl
  cases cmas
  case true => rfl
  cases dis
  case true => rfl
  cases g
  case false => rfl
  cases rng
  case true => rfl
  cases put
  case true => rfl
  cases dr
  case true => rfl
  cases txn
  case true => rfl
  cases cp
  case true => rfl
  cases lgr
  case true => rfl
  cases lrv
  case true => rfl
  cases lcp
  case true => rfl
  cases al
  case some =>
    rename_i req
    obtain ⟨act⟩ := req
    cases act
    case get => rfl
    all_goals simp [isAlarmChange] at h
  cases aut
  case true => rfl
  cases aen
  case true => rfl
  cases adi
  case true => rfl
  cases ast
  case true => rfl
  cases uad
  case true => rfl
  cases ude
  case true => rfl
  cases ucp
  case true => rfl
  cases ugr
  case true => rfl
  cases uge
  case true => rfl
  cases urr
  case true => rfl
  cases rad
  case true => rfl
  cases rgp
  case true => rfl
  cases rge
  case true => rfl
  cases rrp
  case true => rfl
  cases rde
  case true => rfl
  cases uli
  case true => rfl
  cases rli
  case true => rfl
  rfl

/-- C9 witness: a put command leaves all three applier fields unchanged. -/
theorem non_alarm_frame_witness :
    (UberApplier.dispatch trivialBehavior (newUberApplier ⟨false, false⟩)
        { put := true } true).state.applyV3
      = (newUberApplier ⟨false, false⟩).applyV3 :=
  (non_alarm_frame trivialBehavior (newUberApplier ⟨false, false⟩)
    { put := true } true (by decide)).1

/-- C10: a non-cluster-control command with the gate flag false still runs
the deferred instrumentation before the nil outcome is returned: one metric
observation labeled "unknown" with success label true. -/
theorem gate_false_metric (beh : ChainBehavior) (s : UberApplier)
    (r : InternalRaftRequest) (h : isClusterControl r = false) :
    (UberApplier.dispatch beh s r false).result = none ∧
    (UberApplier.dispatch beh s r false).metric = ("unknown", true) := by
  obtain ⟨cvs, cmas, dis, rng, put, dr, txn, cp, lgr, lrv, lcp, al,
    aut, aen, adi, ast, uad, ude, ucp, ugr, uge, urr,
    rad, rgp, rge, rrp, rde, uli, rli⟩ := r
  cases cvs
  case true => simp [isClusterControl] at h
  cases cmas
  case true => simp [isClusterControl] at h
  cases dis
  case true => simp [isClusterControl] at h
  exact ⟨rfl, rfl⟩

/-- C10 witness: a range command with the gate flag false. -/
theorem gate_false_metric_witness :
    (UberApplier.dispatch trivialBehavior (newUberApplier ⟨false, false⟩)
        { range := true } false).metric = ("unknown", true) :=
  (gate_false_metric trivialBehavior (newUberApplier ⟨false, false⟩)
    { range := true } (by decide)).2
